import Mathlib

/-!
Shallow embedding of the weather MCP server (`reports.py`, `inspect_report.py`).

Time is modelled as a `Nat` count of seconds since an epoch; `datetime.now()`
becomes an explicit parameter `now`.  Calendar dates (`strftime "%Y-%m-%d"`)
are modelled by the day number `now / 86400`, and the weekday name
(`strftime "%A"`) by a lookup on the day number modulo 7 (epoch day is a
Thursday).  Python dicts become structures with the same field names; the
JSON text layer is modelled structurally: a tool either returns an error
payload carrying the message string, or the structured record it would
serialize.  Floats in the static current-weather block are carried as `ℚ`
constants (no arithmetic is ever performed on them).
-/

/-- Seconds in a day, for `timedelta(days=i)`. -/
def secondsPerDay : Nat := 86400

/-- Seconds in an hour, for `timedelta(hours=h)`. -/
def secondsPerHour : Nat := 3600

/-- Calendar-date part of an instant: the day number, as produced by
`strftime "%Y-%m-%d"` applied to `datetime.now()`. -/
def dateOf (t : Nat) : Nat := t / secondsPerDay

/-- Weekday name of a day number, as produced by `strftime "%A"`; the epoch
day (day 0) is a Thursday. -/
def dayName (d : Nat) : String :=
  ["Thursday", "Friday", "Saturday", "Sunday",
   "Monday", "Tuesday", "Wednesday"].getD (d % 7) ""

/-- The static `current_weather` block of `reports.py` lines 44-50. -/
structure CurrentWeather where
  temperature : ℚ
  humidity : Int
  condition : String
  wind_speed : ℚ
  wind_direction : String
deriving DecidableEq

/-- One element of `daily_forecast` (`reports.py` lines 57-66). -/
structure DailyForecast where
  date : Nat
  day_of_week : String
  high_temp : Int
  low_temp : Int
  condition : String
  precipitation_chance : Int
  humidity : Int
  wind_speed : Int
deriving DecidableEq

/-- The dict returned by `get_weather_forecast` (`reports.py` lines 41-52). -/
structure ForecastRecord where
  location : String
  forecast_days : Int
  current_weather : CurrentWeather
  daily_forecast : List DailyForecast
deriving DecidableEq

/-- One element of `warnings` (`reports.py` lines 95-110). -/
structure WarningEntry where
  type : String
  severity : String
  description : String
  issued_time : Nat
  valid_until : Nat
  affected_areas : List String
deriving DecidableEq

/-- The dict returned by `get_weather_warnings` (`reports.py` lines 91-113). -/
structure WarningsRecord where
  location : String
  issued_at : Nat
  warnings : List WarningEntry
  total_warnings : Nat
deriving DecidableEq

/-- Error descriptor `{"error": msg}` used inside a summary for a failed
sub-task (`reports.py` lines 195-198). -/
structure ErrorDescriptor where
  error : String
deriving DecidableEq

/-- A summary field holds either the full record or an error descriptor. -/
inductive SummaryField (α : Type) where
  | record (r : α)
  | errorDescriptor (e : ErrorDescriptor)
deriving DecidableEq

/-- The dict built at `reports.py` lines 200-205. -/
structure SummaryRecord where
  location : String
  summary_generated_at : Nat
  forecast_summary : SummaryField ForecastRecord
  warnings_summary : SummaryField WarningsRecord
deriving DecidableEq

/-- A tool either returns the JSON encoding of an error payload
`{"error": msg}` or of a structured record; the text layer is modelled
structurally. -/
inductive ToolResult (α : Type) where
  | errorPayload (msg : String)
  | payload (r : α)
deriving DecidableEq

/-- The static current-weather sample of `reports.py` lines 44-50. -/
def sampleCurrentWeather : CurrentWeather :=
  { temperature := 22.5
    humidity := 65
    condition := "曇り"
    wind_speed := 12.3
    wind_direction := "北東" }

/-- `get_weather_forecast` (`reports.py` lines 26-74): builds the sample
forecast and appends one `daily_data` dict per `i in range(days)`.  The
function body cannot raise, so the `try/except` re-raise wrapper is inert. -/
def get_weather_forecast (now : Nat) (location : String) (days : Int := 5) :
    ForecastRecord :=
  { location := location
    forecast_days := days
    current_weather := sampleCurrentWeather
    daily_forecast :=
      (List.range days.toNat).map (fun i =>
        { date := dateOf (now + i * secondsPerDay)
          day_of_week := dayName (dateOf (now + i * secondsPerDay))
          high_temp := 25 + (i : Int)
          low_temp := 15 + (i : Int)
          condition := if i % 2 = 0 then "晴れ" else "雨"
          precipitation_chance := 20 + (i : Int) * 10
          humidity := 60 + (i : Int) * 5
          wind_speed := 10 + (i : Int) * 2 }) }

/-- `main` from `inspect_report.py` lines 5-53: the second, duplicated copy
of the forecast generator (it prints instead of logging; the data path is
embedded). -/
def inspect_report_main (now : Nat) (location : String) (days : Int) :
    ForecastRecord :=
  { location := location
    forecast_days := days
    current_weather :=
      { temperature := 22.5
        humidity := 65
        condition := "曇り"
        wind_speed := 12.3
        wind_direction := "北東" }
    daily_forecast :=
      (List.range days.toNat).map (fun i =>
        { date := dateOf (now + i * secondsPerDay)
          day_of_week := dayName (dateOf (now + i * secondsPerDay))
          high_temp := 25 + (i : Int)
          low_temp := 15 + (i : Int)
          condition := if i % 2 = 0 then "晴れ" else "雨"
          precipitation_chance := 20 + (i : Int) * 10
          humidity := 60 + (i : Int) * 5
          wind_speed := 10 + (i : Int) * 2 }) }

/-- `get_weather_warnings` (`reports.py` lines 77-120): two fixed synthetic
warning entries, issued at the generation instant. -/
def get_weather_warnings (now : Nat) (location : String) : WarningsRecord :=
  { location := location
    issued_at := now
    warnings :=
      [ { type := "大雨警報"
          severity := "警報"
          description := "24時間降水量が100mmを超える見込みです"
          issued_time := now
          valid_until := now + 12 * secondsPerHour
          affected_areas := [location ++ "南部", location ++ "北部"] },
        { type := "強風注意報"
          severity := "注意報"
          description := "最大風速15m/sの強風が予想されます"
          issued_time := now
          valid_until := now + 6 * secondsPerHour
          affected_areas := [location ++ "全域"] } ]
    total_warnings := 2 }

/-- The per-task error handling of `reports.py` lines 195-198: an exception
captured by `asyncio.gather(..., return_exceptions=True)` is replaced by
`{"error": str(e)}`, a successful result is kept as-is. -/
def resolveOutcome {α : Type} : Except String α → SummaryField α
  | Except.ok a => SummaryField.record a
  | Except.error e => SummaryField.errorDescriptor ⟨e⟩

/-- The aggregation core of `get_weather_summary_tool` (`reports.py` lines
190-205): given the outcome of each gathered task (a result, or the message
of the exception it raised), build the summary dict. -/
def summary_gather (location : String) (now : Nat)
    (forecast_outcome : Except String ForecastRecord)
    (warnings_outcome : Except String WarningsRecord) : SummaryRecord :=
  { location := location
    summary_generated_at := now
    forecast_summary := resolveOutcome forecast_outcome
    warnings_summary := resolveOutcome warnings_outcome }

/-- `get_weather_forecast_tool` (`reports.py` lines 126-147): validates the
location and the day range, then serializes the generator result.  The
generator is total, so the `except` branch is unreachable. -/
def get_weather_forecast_tool (now : Nat) (location : String)
    (days : Int := 5) : ToolResult ForecastRecord :=
  if location = "" then
    ToolResult.errorPayload "場所名を指定してください"
  else if ¬ (1 ≤ days ∧ days ≤ 7) then
    ToolResult.errorPayload "予報日数は1-7日の範囲で指定してください"
  else
    ToolResult.payload (get_weather_forecast now location days)

/-- `get_weather_warnings_tool` (`reports.py` lines 151-168). -/
def get_weather_warnings_tool (now : Nat) (location : String) :
    ToolResult WarningsRecord :=
  if location = "" then
    ToolResult.errorPayload "場所名を指定してください"
  else
    ToolResult.payload (get_weather_warnings now location)

/-- `get_weather_summary_tool` (`reports.py` lines 172-210) with the outcome
of each gathered generator task injectable, to express the partial-failure
policy under fault injection (the generators themselves are total, see
`get_weather_summary_tool` below for the composed tool). -/
def get_weather_summary_tool_outcomes (now : Nat) (location : String)
    (forecast_outcome : Except String ForecastRecord)
    (warnings_outcome : Except String WarningsRecord) :
    ToolResult SummaryRecord :=
  if location = "" then
    ToolResult.errorPayload "場所名を指定してください"
  else
    ToolResult.payload (summary_gather location now forecast_outcome warnings_outcome)

/-- `get_weather_summary_tool` (`reports.py` lines 172-210) as shipped: both
generator tasks are the total synthetic generators, called with a fixed
day-count of 3, so both outcomes are successes. -/
def get_weather_summary_tool (now : Nat) (location : String) :
    ToolResult SummaryRecord :=
  get_weather_summary_tool_outcomes now location
    (Except.ok (get_weather_forecast now location 3))
    (Except.ok (get_weather_warnings now location))

/-- Extract the forecast half of a summary-tool result, when the tool
succeeded and the forecast task succeeded. -/
def forecastField : ToolResult SummaryRecord → Option ForecastRecord
  | ToolResult.payload s =>
      match s.forecast_summary with
      | SummaryField.record f => some f
      | SummaryField.errorDescriptor _ => none
  | ToolResult.errorPayload _ => none

/-! ## Supporting lemmas -/

/-- Adding `i` days to an instant advances its calendar date by `i`. -/
theorem dateOf_add_days (now i : Nat) :
    dateOf (now + i * secondsPerDay) = dateOf now + i := by
  simp only [dateOf, secondsPerDay]
  exact Nat.add_mul_div_right now i (by norm_num)

/-! ## Claims -/

/-- C1: for every non-empty location, the summary aggregator never raises:
whatever the outcome of each gathered generator task, it returns a payload
whose `forecast_summary` / `warnings_summary` field carries the full record
when that task succeeded and an error descriptor with the failure's message
when it failed — including when both tasks fail. -/
theorem summary_partial_failure (now : Nat) (location : String)
    (h : location ≠ "")
    (fr : Except String ForecastRecord) (wr : Except String WarningsRecord) :
    get_weather_summary_tool_outcomes now location fr wr =
      ToolResult.payload
        { location := location
          summary_generated_at := now
          forecast_summary :=
            match fr with
            | Except.ok f => SummaryField.record f
            | Except.error e => SummaryField.errorDescriptor ⟨e⟩
          warnings_summary :=
            match wr with
            | Except.ok w => SummaryField.record w
            | Except.error e => SummaryField.errorDescriptor ⟨e⟩ } := by
  cases fr <;> cases wr <;>
    simp [get_weather_summary_tool_outcomes, h, summary_gather, resolveOutcome]

/-- C1 witness: a failing forecast task and a succeeding warnings task at a
concrete location. -/
theorem summary_partial_failure_witness :
    get_weather_summary_tool_outcomes 0 "東京" (Except.error "forecast boom")
        (Except.ok (get_weather_warnings 0 "東京")) =
      ToolResult.payload
        { location := "東京"
          summary_generated_at := 0
          forecast_summary := SummaryField.errorDescriptor ⟨"forecast boom"⟩
          warnings_summary :=
            SummaryField.record (get_weather_warnings 0 "東京") } :=
  summary_partial_failure 0 "東京" (by decide)
    (Except.error "forecast boom") (Except.ok (get_weather_warnings 0 "東京"))

/-- C2: for days in [1,7], `daily_forecast` has length exactly `days`, and
the entry at offset `i` is dated `today + i` with the weekday name derived
from that date. -/
theorem forecast_length_dates (now : Nat) (location : String) (days : Int)
    (h1 : 1 ≤ days) (h7 : days ≤ 7) :
    ((get_weather_forecast now location days).daily_forecast.length : Int)
        = days ∧
    (get_weather_forecast now location days).daily_forecast.map
        (fun d => (d.date, d.day_of_week))
      = (List.range days.toNat).map
          (fun i => (dateOf now + i, dayName (dateOf now + i))) := by
  constructor
  · simp only [get_weather_forecast, List.length_map, List.length_range]
    omega
  · simp only [get_weather_forecast, List.map_map]
    apply List.map_congr_left
    intro i _
    simp [Function.comp, dateOf_add_days]

/-- C2 witness: three days from instant 0. -/
theorem forecast_length_dates_witness :
    ((get_weather_forecast 0 "東京" 3).daily_forecast.length : Int) = 3 ∧
    (get_weather_forecast 0 "東京" 3).daily_forecast.map
        (fun d => (d.date, d.day_of_week))
      = (List.range (3 : Int).toNat).map
          (fun i => (dateOf 0 + i, dayName (dateOf 0 + i))) :=
  forecast_length_dates 0 "東京" 3 (by decide) (by decide)

/-- C3: each daily entry at offset `i` carries high 25+i, low 15+i, the
parity-alternating condition (the even value at offset 0), precipitation
20+10i, humidity 60+5i and wind 10+2i. -/
theorem forecast_entry_formulas (now : Nat) (location : String) (days : Int) :
    (get_weather_forecast now location days).daily_forecast.map
        (fun d => (d.high_temp, d.low_temp, d.condition,
                   d.precipitation_chance, d.humidity, d.wind_speed))
      = (List.range days.toNat).map
          (fun (i : Nat) => (25 + (i : Int), 15 + (i : Int),
                     if i % 2 = 0 then "晴れ" else "雨",
                     20 + (i : Int) * 10, 60 + (i : Int) * 5,
                     10 + (i : Int) * 2)) := by
  simp only [get_weather_forecast, List.map_map]
  apply List.map_congr_left
  intro i _
  rfl

/-- C4: the summary aggregator always requests a 3-day forecast: on the
success path, the summary's forecast field is the generator's record for a
fixed day-count of 3, and that record has `forecast_days = 3` and exactly 3
daily entries. -/
theorem summary_fixed_three_days (now : Nat) (location : String)
    (h : location ≠ "") :
    forecastField (get_weather_summary_tool now location)
        = some (get_weather_forecast now location 3) ∧
    (get_weather_forecast now location 3).forecast_days = 3 ∧
    (get_weather_forecast now location 3).daily_forecast.length = 3 := by
  refine ⟨?_, rfl, rfl⟩
  simp [get_weather_summary_tool, get_weather_summary_tool_outcomes, h,
        summary_gather, resolveOutcome, forecastField]

/-- C4 witness: concrete location at instant 0. -/
theorem summary_fixed_three_days_witness :
    forecastField (get_weather_summary_tool 0 "東京")
        = some (get_weather_forecast 0 "東京" 3) ∧
    (get_weather_forecast 0 "東京" 3).forecast_days = 3 ∧
    (get_weather_forecast 0 "東京" 3).daily_forecast.length = 3 :=
  summary_fixed_three_days 0 "東京" (by decide)

/-- C5: the warnings record always carries exactly two warnings, and its
`total_warnings` field equals that length. -/
theorem warnings_count (now : Nat) (location : String) :
    (get_weather_warnings now location).total_warnings
        = (get_weather_warnings now location).warnings.length ∧
    (get_weather_warnings now location).warnings.length = 2 :=
  ⟨rfl, rfl⟩

/-- C6: the tool layer rejects invalid arguments before any generator runs:
an empty location yields the location error payload on every tool, and a
day count outside [1,7] yields the range error payload on the forecast
tool. -/
theorem tool_validation (now : Nat) (location : String) (days : Int)
    (hloc : location ≠ "") (hdays : days < 1 ∨ 7 < days) :
    get_weather_forecast_tool now "" days
        = ToolResult.errorPayload "場所名を指定してください" ∧
    get_weather_forecast_tool now location days
        = ToolResult.errorPayload "予報日数は1-7日の範囲で指定してください" ∧
    get_weather_warnings_tool now ""
        = ToolResult.errorPayload "場所名を指定してください" ∧
    get_weather_summary_tool now ""
        = ToolResult.errorPayload "場所名を指定してください" := by
  have hrange : ¬ (1 ≤ days ∧ days ≤ 7) := by omega
  refine ⟨?_, ?_, ?_, ?_⟩
  · simp [get_weather_forecast_tool]
  · simp [get_weather_forecast_tool, hloc, hrange]
  · simp [get_weather_warnings_tool]
  · simp [get_weather_summary_tool, get_weather_summary_tool_outcomes]

/-- C6 witness: day count 0 at a concrete non-empty location. -/
theorem tool_validation_witness :
    get_weather_forecast_tool 0 "" 0
        = ToolResult.errorPayload "場所名を指定してください" ∧
    get_weather_forecast_tool 0 "東京" 0
        = ToolResult.errorPayload "予報日数は1-7日の範囲で指定してください" ∧
    get_weather_warnings_tool 0 ""
        = ToolResult.errorPayload "場所名を指定してください" ∧
    get_weather_summary_tool 0 ""
        = ToolResult.errorPayload "場所名を指定してください" :=
  tool_validation 0 "東京" 0 (by decide) (Or.inl (by decide))

/-- C7: the forecast generator is deterministic for a fixed calendar date:
two calls at instants falling on the same day produce identical
`daily_forecast` content. -/
theorem forecast_deterministic (now₁ now₂ : Nat) (location : String)
    (days : Int) (h : dateOf now₁ = dateOf now₂) :
    (get_weather_forecast now₁ location days).daily_forecast
      = (get_weather_forecast now₂ location days).daily_forecast := by
  simp only [get_weather_forecast]
  apply List.map_congr_left
  intro i _
  simp [dateOf_add_days, h]

/-- C7 witness: two instants within the first calendar day. -/
theorem forecast_deterministic_witness :
    (get_weather_forecast 10 "東京" 5).daily_forecast
      = (get_weather_forecast 86399 "東京" 5).daily_forecast :=
  forecast_deterministic 10 86399 "東京" 5 (by decide)

/-- C8: the duplicated forecast logic in `inspect_report.py` is behaviorally
equivalent to `get_weather_forecast` in `reports.py`: same location, days
and instant give identical forecast records. -/
theorem forecast_duplicate_equivalent (now : Nat) (location : String)
    (days : Int) :
    inspect_report_main now location days
      = get_weather_forecast now location days := rfl

/-- C9: in every warnings record, the first entry is valid until its issue
time plus 12 hours, the second until its issue time plus 6 hours (both are
issued at the generation instant), and the affected areas are built from
the location string. -/
theorem warnings_validity_areas (now : Nat) (location : String) :
    (get_weather_warnings now location).warnings.map
        (fun e => (e.issued_time, e.valid_until, e.affected_areas))
      = [(now, now + 12 * secondsPerHour,
          [location ++ "南部", location ++ "北部"]),
         (now, now + 6 * secondsPerHour, [location ++ "全域"])] := rfl

/-- C10: the forecast generator is total beyond its stated precondition:
for a non-positive day count it still returns a record echoing `days` in
`forecast_days`, with an empty `daily_forecast`. -/
theorem forecast_nonpositive_days (now : Nat) (location : String)
    (days : Int) (h : days ≤ 0) :
    (get_weather_forecast now location days).forecast_days = days ∧
    (get_weather_forecast now location days).daily_forecast = [] := by
  refine ⟨rfl, ?_⟩
  have : days.toNat = 0 := by omega
  simp [get_weather_forecast, this]

/-- C10 witness: day count -1. -/
theorem forecast_nonpositive_days_witness :
    (get_weather_forecast 0 "東京" (-1)).forecast_days = -1 ∧
    (get_weather_forecast 0 "東京" (-1)).daily_forecast = [] :=
  forecast_nonpositive_days 0 "東京" (-1) (by decide)
